import Mathlib

/-!
Verification development for the ck-loader bulk-load orchestrator
(`src/main.rs`, the tokio branch of the file).

The program enumerates regular files of a source directory, spawns one
tokio task per file, bounds simultaneous activity with a counting
semaphore of `workers` permits, runs the external `clickhouse-client`
loader on each file racing it against a timeout, classifies the result,
and on success moves the file into the `done` subdirectory.

We embed the per-job executor and the run coordinator as pure functions
over an explicit environment describing the outside world (file system
answers, child-process behaviour), and the concurrency gate as a small
step transition system.
-/

namespace CkLoader

/-- Run configuration, from the parsed `Args` fields used by the
orchestrator branch: target table, password, per-job parse threads,
maximum parallel files (`workers`), per-job timeout in seconds, and the
source directory path. -/
structure Config where
  dir : String
  table : String
  password : String
  threads : Nat
  workers : Nat
  timeoutSecs : Nat
deriving Repr, DecidableEq

/-- Environment of one job: everything the outside world answers during
the task body of `main.rs` lines 157-241.  `exitTime` is the instant
(seconds from job start) at which `child.wait()` would resolve;
`waitResult` is what it resolves to (`Ok(status.code())` or an OS error);
`stderrCaptured` is `wait_with_output().ok()`s stderr bytes, `none` when
that call fails; `killOk` is the (discarded) result of `child.kill()`;
`renameErr` is the error of `fs::rename`, when it fails. -/
structure JobEnv where
  fileName : String
  fileExists : Bool
  openErr : Option String
  spawnOk : Bool
  exitTime : Nat
  waitResult : Except String (Option Int)
  stderrCaptured : Option (List Nat)
  killOk : Bool
  renameErr : Option String
deriving Repr

/-- Closed outcome classification of one job (the spec data model's
`Outcome`); the code realises it through its control-flow branches. -/
inductive Outcome where
  | success (elapsed : Nat)
  | failure (elapsed : Nat) (diagnostic : String)
  | timeout (elapsed : Nat) (diagnostic : String)
  | skipped (reason : Option String)
deriving Repr, DecidableEq

/-- Is a byte a UTF-8 continuation byte (0x80-0xBF)? -/
def isCont (b : Nat) : Bool :=
  0x80 ≤ b && b ≤ 0xBF

/-- The Unicode replacement character U+FFFD. -/
def replChar : Char := Char.ofNat 0xFFFD

/-- Embedding of Rust's `String::from_utf8_lossy`: decode a byte list as
UTF-8, substituting U+FFFD for each maximal invalid subpart, never
rejecting input. -/
def utf8Lossy : List Nat → List Char
  | [] => []
  | b :: rest =>
    if b < 0x80 then Char.ofNat b :: utf8Lossy rest
    else if 0xC2 ≤ b && b ≤ 0xDF then
      match rest with
      | [] => [replChar]
      | c1 :: rest2 =>
        if isCont c1 then
          Char.ofNat ((b - 0xC0) * 0x40 + (c1 - 0x80)) :: utf8Lossy rest2
        else replChar :: utf8Lossy (c1 :: rest2)
    else if 0xE0 ≤ b && b ≤ 0xEF then
      match rest with
      | [] => [replChar]
      | c1 :: rest2 =>
        if (b = 0xE0 && (0xA0 ≤ c1 && c1 ≤ 0xBF)) ||
           (b = 0xED && (0x80 ≤ c1 && c1 ≤ 0x9F)) ||
           (b ≠ 0xE0 && b ≠ 0xED && isCont c1) then
          match rest2 with
          | [] => [replChar]
          | c2 :: rest3 =>
            if isCont c2 then
              Char.ofNat ((b - 0xE0) * 0x1000 + (c1 - 0x80) * 0x40 + (c2 - 0x80))
                :: utf8Lossy rest3
            else replChar :: utf8Lossy (c2 :: rest3)
        else replChar :: utf8Lossy (c1 :: rest2)
    else if 0xF0 ≤ b && b ≤ 0xF4 then
      match rest with
      | [] => [replChar]
      | c1 :: rest2 =>
        if (b = 0xF0 && (0x90 ≤ c1 && c1 ≤ 0xBF)) ||
           (b = 0xF4 && (0x80 ≤ c1 && c1 ≤ 0x8F)) ||
           (b ≠ 0xF0 && b ≠ 0xF4 && isCont c1) then
          match rest2 with
          | [] => [replChar]
          | c2 :: rest3 =>
            if isCont c2 then
              match rest3 with
              | [] => [replChar]
              | c3 :: rest4 =>
                if isCont c3 then
                  Char.ofNat ((b - 0xF0) * 0x40000 + (c1 - 0x80) * 0x1000 +
                      (c2 - 0x80) * 0x40 + (c3 - 0x80)) :: utf8Lossy rest4
                else replChar :: utf8Lossy (c3 :: rest4)
            else replChar :: utf8Lossy (c2 :: rest3)
        else replChar :: utf8Lossy (c1 :: rest2)
    else replChar :: utf8Lossy rest

/-- Debug formatting of Rust's `Option<i32>` exit code, as `format!`
with `:?` renders it. -/
def fmtOptCode : Option Int → String
  | some c => "Some(" ++ toString c ++ ")"
  | none => "None"

/-- Debug formatting of a whole-second `Duration` (`1800s`). -/
def fmtDur (secs : Nat) : String :=
  toString secs ++ "s"

/-- The diagnostic built in the non-zero-exit branch (`main.rs` lines
207-209): the captured stderr decoded with `from_utf8_lossy` when
`wait_with_output` succeeded, else the fallback naming the exit code. -/
def failDiag (stderrCaptured : Option (List Nat)) (code : Option Int) : String :=
  match stderrCaptured with
  | some bytes => String.mk (utf8Lossy bytes)
  | none => "退出代码: " ++ fmtOptCode code

/-- The fixed timeout diagnostic (`main.rs` line 217), naming the
configured duration. -/
def timeoutMsg (timeoutSecs : Nat) : String :=
  "⏰ 导入超时 (已运行超过 " ++ fmtDur timeoutSecs ++ ")"

/-- Does the `child.wait()` branch of the `select!` win the race against
`time::sleep(timeout_dur)`?  It does iff the child resolves strictly
before the timeout instant. -/
def childWins (cfg : Config) (env : JobEnv) : Bool :=
  env.exitTime < cfg.timeoutSecs

/-- The job executor (`main.rs` lines 157-219), as a function from the
job's environment to its produced outcome.  `none` models the task
panicking: the code calls `.expect` on `spawn()`, so a spawn failure
produces no outcome at all.  Every other path produces exactly one
outcome of the closed set. -/
def runJob (cfg : Config) (env : JobEnv) : Option Outcome :=
  if env.fileExists = false then some (Outcome.skipped none)
  else
    match env.openErr with
    | some e => some (Outcome.skipped (some e))
    | none =>
      if env.spawnOk = false then none
      else if childWins cfg env then
        match env.waitResult with
        | Except.ok code =>
          if code = some 0 then some (Outcome.success env.exitTime)
          else some (Outcome.failure env.exitTime (failDiag env.stderrCaptured code))
        | Except.error e => some (Outcome.failure env.exitTime e)
      else some (Outcome.timeout cfg.timeoutSecs (timeoutMsg cfg.timeoutSecs))

/-- Is the kill of the child attempted?  `child.kill()` runs exactly on
the timeout branch of the `select!` (`main.rs` line 216), i.e. when the
job got as far as spawning and the timeout fired first. -/
def killAttempted (cfg : Config) (env : JobEnv) : Bool :=
  env.fileExists && env.openErr.isNone && env.spawnOk && !(childWins cfg env)

/-- Lines the job body prints (`println!`/`eprintln!` of `main.rs`
lines 164-239), in order: the start line, then the per-branch lines.
Note that the result of `child.kill()` is discarded with `let _ = ...`
and feeds into no printed line. -/
def jobLogs (cfg : Config) (env : JobEnv) : List String :=
  ("🚀 正在启动: " ++ env.fileName) ::
    (if env.fileExists = false then []
     else
       match env.openErr with
       | some e => [("❌ 无法打开文件 " ++ env.fileName ++ ": " ++ e)]
       | none =>
         if env.spawnOk = false then []
         else
           match runJob cfg env with
           | some (Outcome.success elapsed) =>
             ("✅ SUCCESS: " ++ env.fileName ++ " | 耗时: " ++ fmtDur elapsed) ::
               (match env.renameErr with
                | some e => [("⚠️ 成功后文件移动失败: " ++ env.fileName ++ ", 错误: " ++ e)]
                | none => [])
           | some (Outcome.failure _ d) =>
             [("❌ ERROR: " ++ env.fileName ++ " | 详情: " ++ d.trim)]
           | some (Outcome.timeout _ d) =>
             [("❌ ERROR: " ++ env.fileName ++ " | 详情: " ++ d.trim)]
           | _ => [])

/-! ## Completion handler (`main.rs` lines 222-240) -/

/-- Where the input file sits after its job finishes. -/
inductive Location where
  | atSource
  | atDest
deriving Repr, DecidableEq

/-- The destination path the success branch builds: `done` subdirectory
of the source directory, then the original file name
(`main.rs` lines 140-141 and 231-232). -/
def destPath (cfg : Config) (name : String) : String :=
  cfg.dir ++ "/done/" ++ name

/-- The rename target, when the move is attempted.  The code attempts
`fs::rename` exactly on the `Ok` (success) branch of the result match. -/
def moveAttemptedTo (cfg : Config) (env : JobEnv) : Option String :=
  match runJob cfg env with
  | some (Outcome.success _) => some (destPath cfg env.fileName)
  | _ => none

/-- Final location of the job's file: it moved iff the rename was
attempted and `fs::rename` did not error. -/
def finalLocation (cfg : Config) (env : JobEnv) : Location :=
  match runJob cfg env with
  | some (Outcome.success _) =>
    match env.renameErr with
    | none => Location.atDest
    | some _ => Location.atSource
  | _ => Location.atSource

/-- Did the job body print the move-failure warning?  Only the success
branch renames, and only a rename error warns (`main.rs` line 234). -/
def moveWarned (cfg : Config) (env : JobEnv) : Bool :=
  match runJob cfg env with
  | some (Outcome.success _) => env.renameErr.isSome
  | _ => false

/-! ## Run coordinator (`main.rs` lines 59-252) -/

/-- One `read_dir` entry that resolved: its path data and whether it is
a regular file, plus the environment its job would see if launched. -/
structure Entry where
  name : String
  isFile : Bool
  job : JobEnv
deriving Repr

/-- Environment of a whole run: the enumeration answer (the `read_dir`
call may fail as a whole, and each iterated entry may fail), whether the
`done` directory already exists, the answer of `create_dir_all`, and the
total wall-clock duration of the run. -/
structure RunEnv where
  readDirErr : Option String
  entries : List (Except String Entry)
  doneDirExists : Bool
  createDirErr : Option String
  totalElapsed : Nat
deriving Repr

/-- The enumeration loop (`main.rs` lines 64-73): collect the paths of
regular-file entries, aborting the run at the first entry error
(the `entry?`). -/
def collectFiles : List (Except String Entry) → Except String (List Entry)
  | [] => Except.ok []
  | Except.error e :: _ => Except.error e
  | Except.ok en :: rest =>
    match collectFiles rest with
    | Except.error e => Except.error e
    | Except.ok fs => Except.ok (if en.isFile then en :: fs else fs)

/-- The startup line printed once files are found (`main.rs` line 81). -/
def headerLine (total workers threads : Nat) : String :=
  "📂 找到 " ++ toString total ++ " 个文件，准备执行 (并行数: " ++
    toString workers ++ ", 解析线程: " ++ toString threads ++ ")..."

/-- The empty-enumeration line (`main.rs` line 77). -/
def noFilesLine : String := "📭 未找到 .orc 文件，程序退出。"

/-- The run-end summary block (`main.rs` lines 248-249): a completion
banner and the total wall-clock elapsed time.  It is a function of the
elapsed duration only. -/
def summaryLogs (totalElapsed : Nat) : List String :=
  [("\n🏁 批次执行完毕！"), ("⏱️ 总耗时: " ++ fmtDur totalElapsed)]

/-- Is the destination-directory creation attempted?  Only when the file
list is non-empty (the empty case returned already) and the directory
does not exist (`main.rs` lines 142-144). -/
def dirCreationAttempted (env : RunEnv) : Bool :=
  match collectFiles env.entries with
  | Except.error _ => false
  | Except.ok files => !files.isEmpty && !env.doneDirExists

/-- Result of a whole run: the lines it prints, in program order (job
lines linearised task by task; the real interleaving permutes them but
the summary always follows all of them, since it is printed after
`join_all`), and `main`'s returned `Result`. -/
def mainRun (cfg : Config) (env : RunEnv) : List String × Except String Unit :=
  match env.readDirErr with
  | some e => ([], Except.error ("无法读取目录: " ++ e))
  | none =>
    match collectFiles env.entries with
    | Except.error e => ([], Except.error e)
    | Except.ok files =>
      if files.isEmpty then ([noFilesLine], Except.ok ())
      else
        if !env.doneDirExists && env.createDirErr.isSome then
          ([headerLine files.length cfg.workers cfg.threads],
           Except.error "无法创建 done 目录")
        else
          (headerLine files.length cfg.workers cfg.threads ::
             ((files.map (fun en => jobLogs cfg en.job)).flatten ++
               summaryLogs env.totalElapsed),
           Except.ok ())

/-- The outcomes of a run's jobs, one slot per enumerated file; `none`
is a task that panicked (spawn failure). -/
def runOutcomes (cfg : Config) (env : RunEnv) : List (Option Outcome) :=
  match collectFiles env.entries with
  | Except.error _ => []
  | Except.ok files => files.map (fun en => runJob cfg en.job)

/-- Count per outcome kind over a run, as the quadruple
(successes, failures, timeouts, skips). -/
def outcomeCounts (cfg : Config) (env : RunEnv) : Nat × Nat × Nat × Nat :=
  let os := runOutcomes cfg env
  (os.countP (fun o => match o with | some (Outcome.success _) => true | _ => false),
   os.countP (fun o => match o with | some (Outcome.failure _ _) => true | _ => false),
   os.countP (fun o => match o with | some (Outcome.timeout _ _) => true | _ => false),
   os.countP (fun o => match o with | some (Outcome.skipped _) => true | _ => false))

/-! ## Concurrency gate (`main.rs` lines 148-161, 196, 246)

The semaphore of `workers` permits, the per-task RAII permit guard, and
`join_all`, as a step transition system.  A task is `pending` until
`sem.acquire()` returns, `admitted` while it holds the permit before
(or instead of) spawning the child, `active` while the child process
executes, and terminal (`done` or `panicked`) after its scope ends —
the permit guard `_permit` is dropped on every exit path, the unwind of
the spawn `.expect` panic included. -/

/-- Phase of one spawned task. -/
inductive Phase where
  | pending
  | admitted
  | active
  | done
  | panicked
deriving Repr, DecidableEq

/-- Does a task in this phase hold a semaphore permit? -/
def holdsPermit : Phase → Bool
  | Phase.admitted => true
  | Phase.active => true
  | _ => false

/-- Is the task finished (its scope ended, permit guard dropped)? -/
def isTerminal : Phase → Bool
  | Phase.done => true
  | Phase.panicked => true
  | _ => false

/-- State of the gate: free permits and the phase of each task. -/
structure GateState where
  avail : Nat
  phases : List Phase
deriving Repr, DecidableEq

/-- Number of tasks holding a permit. -/
def holders (s : GateState) : Nat :=
  s.phases.countP holdsPermit

/-- Number of tasks whose external loader process is executing. -/
def activeCount (s : GateState) : Nat :=
  s.phases.countP (fun p => p = Phase.active)

/-- All tasks have finished: `join_all` has returned. -/
def allTerminal (s : GateState) : Prop :=
  ∀ p ∈ s.phases, isTerminal p = true

/-- One scheduler step of the gate system.  `acquire` needs a free
permit; `spawnStep` starts the child; `skipStep` ends an admitted task
that never spawned (vanished file, open failure); `panicStep` is the
spawn `.expect` panic unwinding the task; `finish` ends a task whose
child ran (success, failure or timeout alike).  Every transition out of
a permit-holding phase returns the permit. -/
inductive Step : GateState → GateState → Prop where
  | acquire (s : GateState) (i : Nat) (h : s.phases[i]? = some Phase.pending)
      (ha : 0 < s.avail) :
      Step s ⟨s.avail - 1, s.phases.set i Phase.admitted⟩
  | spawnStep (s : GateState) (i : Nat) (h : s.phases[i]? = some Phase.admitted) :
      Step s ⟨s.avail, s.phases.set i Phase.active⟩
  | skipStep (s : GateState) (i : Nat) (h : s.phases[i]? = some Phase.admitted) :
      Step s ⟨s.avail + 1, s.phases.set i Phase.done⟩
  | panicStep (s : GateState) (i : Nat) (h : s.phases[i]? = some Phase.admitted) :
      Step s ⟨s.avail + 1, s.phases.set i Phase.panicked⟩
  | finish (s : GateState) (i : Nat) (h : s.phases[i]? = some Phase.active) :
      Step s ⟨s.avail + 1, s.phases.set i Phase.done⟩

/-- Initial state: `Semaphore::new(workers)` free permits, one pending
task per enumerated file. -/
def gateInit (workers jobs : Nat) : GateState :=
  ⟨workers, List.replicate jobs Phase.pending⟩

/-- Reachability from the initial state. -/
def Reachable (workers jobs : Nat) (s : GateState) : Prop :=
  Relation.ReflTransGen Step (gateInit workers jobs) s

/-- Permit conservation: free permits plus held permits equal the pool
size.  This is the gate invariant. -/
def GateInv (workers : Nat) (s : GateState) : Prop :=
  s.avail + holders s = workers

/-- Weight of a phase, strictly decreasing along every step; fuel for
the progress argument. -/
def phaseWeight : Phase → Nat
  | Phase.pending => 3
  | Phase.admitted => 2
  | Phase.active => 1
  | Phase.done => 0
  | Phase.panicked => 0

/-- Remaining work of a gate state. -/
def gateMeasure (s : GateState) : Nat :=
  (s.phases.map phaseWeight).sum

/-! ## Concrete environments used in witnesses and counterexamples -/

/-- A representative configuration (defaults of `Args` with a source
directory and table). -/
def cfg0 : Config :=
  { dir := ("/data"), table := ("t1"), password := ("123"),
    threads := 8, workers := 4, timeoutSecs := 1800 }

/-- Job whose file vanished between enumeration and execution. -/
def envVanished : JobEnv :=
  { fileName := ("a.orc"), fileExists := false, openErr := none,
    spawnOk := true, exitTime := 0, waitResult := Except.ok (some 0),
    stderrCaptured := none, killOk := true, renameErr := none }

/-- Job whose `File::open` fails. -/
def envOpenFail : JobEnv :=
  { fileName := ("b.orc"), fileExists := true,
    openErr := some ("Permission denied (os error 13)"),
    spawnOk := true, exitTime := 0, waitResult := Except.ok (some 0),
    stderrCaptured := none, killOk := true, renameErr := none }

/-- Job whose `clickhouse-client` spawn fails (e.g. binary missing). -/
def envSpawnFail : JobEnv :=
  { fileName := ("c.orc"), fileExists := true, openErr := none,
    spawnOk := false, exitTime := 0, waitResult := Except.ok (some 0),
    stderrCaptured := none, killOk := true, renameErr := none }

/-- Job whose child runs past the 1800s deadline; the `kill` fails. -/
def envTimeout : JobEnv :=
  { fileName := ("d.orc"), fileExists := true, openErr := none,
    spawnOk := true, exitTime := 100000, waitResult := Except.ok (some 0),
    stderrCaptured := some [101], killOk := false, renameErr := none }

/-- Job that succeeds in 5s; the rename succeeds. -/
def envSucc : JobEnv :=
  { fileName := ("e.orc"), fileExists := true, openErr := none,
    spawnOk := true, exitTime := 5, waitResult := Except.ok (some 0),
    stderrCaptured := none, killOk := true, renameErr := none }

/-- Job whose child exits with status 1 and stderr `bad`. -/
def envFailX : JobEnv :=
  { fileName := ("g.orc"), fileExists := true, openErr := none,
    spawnOk := true, exitTime := 5, waitResult := Except.ok (some 1),
    stderrCaptured := some [98, 97, 100], killOk := true, renameErr := none }

/-- Job that succeeds but whose post-success rename fails. -/
def envRenameFail : JobEnv :=
  { fileName := ("h.orc"), fileExists := true, openErr := none,
    spawnOk := true, exitTime := 5, waitResult := Except.ok (some 0),
    stderrCaptured := none, killOk := true,
    renameErr := some ("Invalid cross-device link (os error 18)") }

/-- Job with non-zero exit and prescribed stderr bytes. -/
def envNonzero (bytes : List Nat) : JobEnv :=
  { fileName := ("f.orc"), fileExists := true, openErr := none,
    spawnOk := true, exitTime := 7, waitResult := Except.ok (some 1),
    stderrCaptured := some bytes, killOk := true, renameErr := none }

/-- Run with a single succeeding job. -/
def runEnvS : RunEnv :=
  { readDirErr := none, entries := [Except.ok ⟨("e.orc"), true, envSucc⟩],
    doneDirExists := true, createDirErr := none, totalElapsed := 42 }

/-- Run with a single failing job; same elapsed total as `runEnvS`. -/
def runEnvF : RunEnv :=
  { readDirErr := none, entries := [Except.ok ⟨("g.orc"), true, envFailX⟩],
    doneDirExists := true, createDirErr := none, totalElapsed := 42 }

/-- Run with one spawn-panicking job and one succeeding sibling. -/
def runEnvPanic : RunEnv :=
  { readDirErr := none,
    entries := [Except.ok ⟨("c.orc"), true, envSpawnFail⟩,
                Except.ok ⟨("e.orc"), true, envSucc⟩],
    doneDirExists := true, createDirErr := none, totalElapsed := 9 }

/-- Run whose `read_dir` itself fails. -/
def runEnvFatal : RunEnv :=
  { readDirErr := some ("No such file or directory (os error 2)"),
    entries := [], doneDirExists := true, createDirErr := none,
    totalElapsed := 0 }

/-- Run where an iterated directory entry fails (`entry?`). -/
def runEnvEntryErr : RunEnv :=
  { readDirErr := none, entries := [Except.error ("entry lost")],
    doneDirExists := true, createDirErr := none, totalElapsed := 0 }

/-- Run where the `done` directory must be created and creation fails. -/
def runEnvCreateFail : RunEnv :=
  { readDirErr := none, entries := [Except.ok ⟨("e.orc"), true, envSucc⟩],
    doneDirExists := false, createDirErr := some ("No space left (os error 28)"),
    totalElapsed := 1 }

/-- Run whose only entry is the `done` subdirectory itself (not a
regular file): the file list is empty.  `createDirErr` is populated to
show creation is not even attempted. -/
def runEnvEmpty : RunEnv :=
  { readDirErr := none, entries := [Except.ok ⟨("done"), false, envSucc⟩],
    doneDirExists := false, createDirErr := some ("never consulted"),
    totalElapsed := 0 }

/-- Run where the `done` directory must be created and creation works. -/
def runEnvCreateOk : RunEnv :=
  { readDirErr := none, entries := [Except.ok ⟨("e.orc"), true, envSucc⟩],
    doneDirExists := false, createDirErr := none, totalElapsed := 3 }

/-! ## Gate lemmas -/

theorem countP_set_eq {α : Type} (p : α → Bool) :
    ∀ (l : List α) (i : Nat) (a b : α), l[i]? = some b →
      (l.set i a).countP p + (if p b then 1 else 0)
        = l.countP p + (if p a then 1 else 0)
  | [], i, a, b, h => by simp at h
  | x :: xs, 0, a, b, h => by
    simp at h
    subst h
    simp [List.countP_cons]
    omega
  | x :: xs, i + 1, a, b, h => by
    simp at h
    have ih := countP_set_eq p xs i a b h
    simp [List.countP_cons]
    omega

theorem sum_map_set_eq {α : Type} (f : α → Nat) :
    ∀ (l : List α) (i : Nat) (a b : α), l[i]? = some b →
      ((l.set i a).map f).sum + f b = (l.map f).sum + f a
  | [], i, a, b, h => by simp at h
  | x :: xs, 0, a, b, h => by
    simp at h
    subst h
    simp
    omega
  | x :: xs, i + 1, a, b, h => by
    simp at h
    have ih := sum_map_set_eq f xs i a b h
    simp only [List.set_cons_succ, List.map_cons, List.sum_cons]
    omega

theorem sum_map_zero_mem {α : Type} (f : α → Nat) :
    ∀ (l : List α), (l.map f).sum = 0 → ∀ a ∈ l, f a = 0 := by
  intro l
  induction l with
  | nil => intro _ a ha; simp at ha
  | cons x xs ih =>
    intro hsum a ha
    simp at hsum
    rcases List.mem_cons.mp ha with rfl | ha2
    · exact hsum.1
    · exact ih hsum.2 a ha2

theorem gateInv_init (w n : Nat) : GateInv w (gateInit w n) := by
  simp [GateInv, gateInit, holders, List.countP_replicate, holdsPermit]

theorem gateInv_step {w : Nat} {s t : GateState} (hs : Step s t)
    (hi : GateInv w s) : GateInv w t := by
  cases hs with
  | acquire i h ha =>
    have hc := countP_set_eq holdsPermit s.phases i Phase.admitted Phase.pending h
    rw [show (if holdsPermit Phase.pending then 1 else 0) = 0 from rfl,
        show (if holdsPermit Phase.admitted then 1 else 0) = 1 from rfl] at hc
    unfold GateInv holders at hi ⊢
    dsimp only at hi ⊢
    omega
  | spawnStep i h =>
    have hc := countP_set_eq holdsPermit s.phases i Phase.active Phase.admitted h
    rw [show (if holdsPermit Phase.admitted then 1 else 0) = 1 from rfl,
        show (if holdsPermit Phase.active then 1 else 0) = 1 from rfl] at hc
    unfold GateInv holders at hi ⊢
    dsimp only at hi ⊢
    omega
  | skipStep i h =>
    have hc := countP_set_eq holdsPermit s.phases i Phase.done Phase.admitted h
    rw [show (if holdsPermit Phase.admitted then 1 else 0) = 1 from rfl,
        show (if holdsPermit Phase.done then 1 else 0) = 0 from rfl] at hc
    unfold GateInv holders at hi ⊢
    dsimp only at hi ⊢
    omega
  | panicStep i h =>
    have hc := countP_set_eq holdsPermit s.phases i Phase.panicked Phase.admitted h
    rw [show (if holdsPermit Phase.admitted then 1 else 0) = 1 from rfl,
        show (if holdsPermit Phase.panicked then 1 else 0) = 0 from rfl] at hc
    unfold GateInv holders at hi ⊢
    dsimp only at hi ⊢
    omega
  | finish i h =>
    have hc := countP_set_eq holdsPermit s.phases i Phase.done Phase.active h
    rw [show (if holdsPermit Phase.active then 1 else 0) = 1 from rfl,
        show (if holdsPermit Phase.done then 1 else 0) = 0 from rfl] at hc
    unfold GateInv holders at hi ⊢
    dsimp only at hi ⊢
    omega

theorem gateInv_reachable {w n : Nat} {s : GateState}
    (h : Reachable w n s) : GateInv w s := by
  induction h with
  | refl => exact gateInv_init w n
  | tail _ hstep ih => exact gateInv_step hstep ih

theorem active_le_holders (s : GateState) : activeCount s ≤ holders s := by
  unfold activeCount holders
  apply List.countP_mono_left
  intro x _ hx
  simp at hx
  subst hx
  rfl

theorem holders_zero_of_terminal {s : GateState} (h : allTerminal s) :
    holders s = 0 := by
  unfold holders
  rw [List.countP_eq_zero]
  intro a ha
  have := h a ha
  cases a <;> simp_all [isTerminal, holdsPermit]

theorem step_decreases {s t : GateState} (hs : Step s t) :
    gateMeasure t < gateMeasure s := by
  cases hs with
  | acquire i h ha =>
    have hc := sum_map_set_eq phaseWeight s.phases i Phase.admitted Phase.pending h
    rw [show phaseWeight Phase.pending = 3 from rfl,
        show phaseWeight Phase.admitted = 2 from rfl] at hc
    unfold gateMeasure
    dsimp only
    omega
  | spawnStep i h =>
    have hc := sum_map_set_eq phaseWeight s.phases i Phase.active Phase.admitted h
    rw [show phaseWeight Phase.admitted = 2 from rfl,
        show phaseWeight Phase.active = 1 from rfl] at hc
    unfold gateMeasure
    dsimp only
    omega
  | skipStep i h =>
    have hc := sum_map_set_eq phaseWeight s.phases i Phase.done Phase.admitted h
    rw [show phaseWeight Phase.admitted = 2 from rfl,
        show phaseWeight Phase.done = 0 from rfl] at hc
    unfold gateMeasure
    dsimp only
    omega
  | panicStep i h =>
    have hc := sum_map_set_eq phaseWeight s.phases i Phase.panicked Phase.admitted h
    rw [show phaseWeight Phase.admitted = 2 from rfl,
        show phaseWeight Phase.panicked = 0 from rfl] at hc
    unfold gateMeasure
    dsimp only
    omega
  | finish i h =>
    have hc := sum_map_set_eq phaseWeight s.phases i Phase.done Phase.active h
    rw [show phaseWeight Phase.active = 1 from rfl,
        show phaseWeight Phase.done = 0 from rfl] at hc
    unfold gateMeasure
    dsimp only
    omega

theorem step_keeps_terminal {s t : GateState} (hs : Step s t) {i : Nat}
    {ph : Phase} (h : s.phases[i]? = some ph) (hterm : isTerminal ph = true) :
    t.phases[i]? = some ph := by
  cases hs with
  | acquire j hj ha =>
    have hne : j ≠ i := by
      intro he; subst he; rw [hj] at h; simp at h; subst h; simp [isTerminal] at hterm
    simp [List.getElem?_set_ne hne, h]
  | spawnStep j hj =>
    have hne : j ≠ i := by
      intro he; subst he; rw [hj] at h; simp at h; subst h; simp [isTerminal] at hterm
    simp [List.getElem?_set_ne hne, h]
  | skipStep j hj =>
    have hne : j ≠ i := by
      intro he; subst he; rw [hj] at h; simp at h; subst h; simp [isTerminal] at hterm
    simp [List.getElem?_set_ne hne, h]
  | panicStep j hj =>
    have hne : j ≠ i := by
      intro he; subst he; rw [hj] at h; simp at h; subst h; simp [isTerminal] at hterm
    simp [List.getElem?_set_ne hne, h]
  | finish j hj =>
    have hne : j ≠ i := by
      intro he; subst he; rw [hj] at h; simp at h; subst h; simp [isTerminal] at hterm
    simp [List.getElem?_set_ne hne, h]

theorem rtg_keeps_terminal {s t : GateState}
    (h : Relation.ReflTransGen Step s t) {i : Nat} {ph : Phase}
    (hi : s.phases[i]? = some ph) (hterm : isTerminal ph = true) :
    t.phases[i]? = some ph := by
  induction h with
  | refl => exact hi
  | tail _ hstep ih => exact step_keeps_terminal hstep ih hterm

theorem weight_zero_terminal {p : Phase} (h : phaseWeight p = 0) :
    isTerminal p = true := by
  cases p <;> simp_all [phaseWeight, isTerminal]

theorem exists_index_of_mem {α : Type} {a : α} {l : List α} (h : a ∈ l) :
    ∃ i : Nat, l[i]? = some a :=
  List.mem_iff_getElem?.mp h

/-- From any state satisfying the gate invariant (with at least one
permit in the pool), a state where every task has finished is reachable:
no job, panicked siblings included, can block the others or `join_all`. -/
theorem gateProgress {w : Nat} (hw : 1 ≤ w) :
    ∀ (m : Nat) (s : GateState), gateMeasure s ≤ m → GateInv w s →
      ∃ t, Relation.ReflTransGen Step s t ∧ allTerminal t := by
  intro m
  induction m with
  | zero =>
    intro s hm hi
    refine ⟨s, Relation.ReflTransGen.refl, ?_⟩
    intro p hp
    exact weight_zero_terminal
      (sum_map_zero_mem phaseWeight s.phases (Nat.le_zero.mp hm) p hp)
  | succ k ih =>
    intro s hm hi
    by_cases hterm : allTerminal s
    · exact ⟨s, Relation.ReflTransGen.refl, hterm⟩
    · have hstep : ∃ t, Step s t := by
        unfold allTerminal at hterm
        push_neg at hterm
        obtain ⟨p, hp, hpt⟩ := hterm
        obtain ⟨i, hpi⟩ := exists_index_of_mem hp
        cases p with
        | done => simp [isTerminal] at hpt
        | panicked => simp [isTerminal] at hpt
        | admitted => exact ⟨_, Step.skipStep s i hpi⟩
        | active => exact ⟨_, Step.finish s i hpi⟩
        | pending =>
          by_cases hav : 0 < s.avail
          · exact ⟨_, Step.acquire s i hpi hav⟩
          · have hhold : 0 < holders s := by
              unfold GateInv at hi
              omega
            have hmem := List.countP_pos_iff.mp hhold
            obtain ⟨q, hq, hqp⟩ := hmem
            obtain ⟨j, hqj⟩ := exists_index_of_mem hq
            cases q with
            | admitted => exact ⟨_, Step.skipStep s j hqj⟩
            | active => exact ⟨_, Step.finish s j hqj⟩
            | pending => simp [holdsPermit] at hqp
            | done => simp [holdsPermit] at hqp
            | panicked => simp [holdsPermit] at hqp
      obtain ⟨t, ht⟩ := hstep
      have hdec := step_decreases ht
      obtain ⟨u, hru, hu⟩ := ih t (by omega) (gateInv_step ht hi)
      exact ⟨u, Relation.ReflTransGen.head ht hru, hu⟩

/-! ## Claim theorems -/

/-- C1: in every reachable state of the gate system, the number of
concurrently executing external loader processes is at most `workers`;
free and held permits always sum to the pool size (each admission takes
exactly one permit and each exit path — success, failure, timeout,
skip, or panic unwind — returns it exactly once); and once every task
has finished, all permits are back in the pool: no permit leaks. -/
theorem gate_bound_and_no_leak (w n : Nat) (s : GateState)
    (h : Reachable w n s) :
    activeCount s ≤ w ∧ s.avail + holders s = w ∧
      (allTerminal s → s.avail = w) := by
  have hi := gateInv_reachable h
  unfold GateInv at hi
  have hal := active_le_holders s
  refine ⟨by omega, hi, ?_⟩
  intro ht
  have hz := holders_zero_of_terminal ht
  omega

/-- Witness for C1, at a concrete two-job run under one permit: one job
acquires, spawns and finishes, then the second acquires and panics at
spawn; both permits are back at the end. -/
theorem gate_bound_and_no_leak_witness :
    activeCount ⟨1, [Phase.done, Phase.panicked]⟩ ≤ 1 ∧
    (GateState.mk 1 [Phase.done, Phase.panicked]).avail
        + holders ⟨1, [Phase.done, Phase.panicked]⟩ = 1 ∧
    (allTerminal ⟨1, [Phase.done, Phase.panicked]⟩ →
      (GateState.mk 1 [Phase.done, Phase.panicked]).avail = 1) := by
  have hreach : Reachable 1 2 ⟨1, [Phase.done, Phase.panicked]⟩ := by
    apply Relation.ReflTransGen.head (Step.acquire (gateInit 1 2) 0 rfl (by decide))
    apply Relation.ReflTransGen.head
      (Step.spawnStep ⟨0, [Phase.admitted, Phase.pending]⟩ 0 rfl)
    apply Relation.ReflTransGen.head
      (Step.finish ⟨0, [Phase.active, Phase.pending]⟩ 0 rfl)
    apply Relation.ReflTransGen.head
      (Step.acquire ⟨1, [Phase.done, Phase.pending]⟩ 1 rfl (by decide))
    apply Relation.ReflTransGen.head
      (Step.panicStep ⟨0, [Phase.done, Phase.admitted]⟩ 1 rfl)
    exact Relation.ReflTransGen.refl
  exact gate_bound_and_no_leak 1 2 _ hreach

/-- C2: the three pre-spawn paths of the executor, evaluated.  A
vanished file yields `Skipped` (without a captured error: the code
returns silently), an open failure yields `Skipped` carrying the I/O
error — but a job whose loader spawn fails produces NO outcome at all:
the task panics through `.expect`, contradicting the claim that every
enumerated job produces exactly one outcome of the closed set. -/
theorem job_outcome_paths :
    runJob cfg0 envVanished = some (Outcome.skipped none) ∧
    runJob cfg0 envOpenFail
      = some (Outcome.skipped (some ("Permission denied (os error 13)"))) ∧
    runJob cfg0 envSpawnFail = none :=
  ⟨rfl, rfl, rfl⟩

/-- C3: the file is moved to the destination directory, under its
original name, exactly when the outcome is `Success` and the rename
does not fail; on any non-Success outcome no move is attempted and the
file stays at its source path; a failed post-success move leaves the
file at the source, emits only a warning, and the outcome remains
`Success`. -/
theorem relocate_iff_success (cfg : Config) (env : JobEnv) :
    ((moveAttemptedTo cfg env ≠ none) ↔
        ∃ e, runJob cfg env = some (Outcome.success e)) ∧
    (moveAttemptedTo cfg env = none ∨
        moveAttemptedTo cfg env = some (destPath cfg env.fileName)) ∧
    (finalLocation cfg env = Location.atDest ↔
        (∃ e, runJob cfg env = some (Outcome.success e)) ∧ env.renameErr = none) ∧
    ((¬ ∃ e, runJob cfg env = some (Outcome.success e)) →
        finalLocation cfg env = Location.atSource ∧
        moveAttemptedTo cfg env = none ∧ moveWarned cfg env = false) ∧
    (∀ e, runJob cfg env = some (Outcome.success e) → env.renameErr ≠ none →
        finalLocation cfg env = Location.atSource ∧ moveWarned cfg env = true) := by
  rcases hr : runJob cfg env with _ | o
  · simp [moveAttemptedTo, finalLocation, moveWarned, hr]
  · cases o with
    | success e0 =>
      rcases hre : env.renameErr with _ | r <;>
        simp [moveAttemptedTo, finalLocation, moveWarned, hr, hre]
    | failure e0 d =>
      simp [moveAttemptedTo, finalLocation, moveWarned, hr]
    | timeout e0 d =>
      simp [moveAttemptedTo, finalLocation, moveWarned, hr]
    | skipped r0 =>
      simp [moveAttemptedTo, finalLocation, moveWarned, hr]

/-- Witness for C3 at three concrete jobs: a clean success moves the
file to `done`, a failure leaves it in place, and a success whose move
fails stays in place with a warning while remaining a success. -/
theorem relocate_iff_success_witness :
    finalLocation cfg0 envSucc = Location.atDest ∧
    (finalLocation cfg0 envFailX = Location.atSource ∧
      moveAttemptedTo cfg0 envFailX = none) ∧
    (finalLocation cfg0 envRenameFail = Location.atSource ∧
      moveWarned cfg0 envRenameFail = true) := by
  refine ⟨?_, ?_, ?_⟩
  · exact (relocate_iff_success cfg0 envSucc).2.2.1.mpr ⟨⟨5, rfl⟩, rfl⟩
  · have h := (relocate_iff_success cfg0 envFailX).2.2.2.1 (by
      intro he
      obtain ⟨e, he2⟩ := he
      rw [show runJob cfg0 envFailX
        = some (Outcome.failure 5 (failDiag (some [98, 97, 100]) (some 1)))
          from rfl] at he2
      simp at he2)
    exact ⟨h.1, h.2.1⟩
  · exact (relocate_iff_success cfg0 envRenameFail).2.2.2.2 5 rfl (by
      rw [show envRenameFail.renameErr
        = some ("Invalid cross-device link (os error 18)") from rfl]
      simp)

/-- C4: a spawn failure does not produce a `Failure` outcome carrying
the spawn error — the code panics the task via `.expect`, producing no
outcome at all — although the run itself is indeed not terminated (the
panic is absorbed by the task runtime and `main` still returns Ok). -/
theorem spawn_failure_panics :
    runJob cfg0 envSpawnFail = none ∧
    jobLogs cfg0 envSpawnFail = [("🚀 正在启动: c.orc")] ∧
    (mainRun cfg0 runEnvPanic).2 = Except.ok () :=
  ⟨rfl, rfl, rfl⟩

/-- C5 counterexample: the claim states a termination failure is
logged.  It is not: the code discards the result of `child.kill()`
(`let _ = child.kill().await`), so at a concrete timed-out job whose
kill fails, the printed lines are identical to those of the same job
whose kill succeeds — the kill result cannot appear in any log. -/
theorem kill_failure_unlogged :
    envTimeout.killOk = false ∧
    killAttempted cfg0 envTimeout = true ∧
    runJob cfg0 envTimeout = some (Outcome.timeout 1800 (timeoutMsg 1800)) ∧
    jobLogs cfg0 envTimeout = jobLogs cfg0 { envTimeout with killOk := true } ∧
    runJob cfg0 envTimeout = runJob cfg0 { envTimeout with killOk := true } :=
  ⟨rfl, rfl, rfl, rfl, rfl⟩

/-- C5 (amended): when the external process exceeds the configured
timeout, the timeout branch wins the race, a kill of the child is
attempted (its failure is silently ignored, not logged, and does not
change the outcome), and a `Timeout` outcome is produced whose
diagnostic is the fixed message naming the configured duration —
independent of the captured stderr, the wait result and the kill
result — with elapsed time ≥ the configured timeout. -/
theorem timeout_branch_behavior (cfg : Config) (env : JobEnv)
    (hex : env.fileExists = true) (hop : env.openErr = none)
    (hsp : env.spawnOk = true) (ht : cfg.timeoutSecs < env.exitTime) :
    runJob cfg env
      = some (Outcome.timeout cfg.timeoutSecs (timeoutMsg cfg.timeoutSecs)) ∧
    killAttempted cfg env = true ∧
    (∀ e d, runJob cfg env = some (Outcome.timeout e d) →
      cfg.timeoutSecs ≤ e ∧ d = timeoutMsg cfg.timeoutSecs) ∧
    (∀ bytes wr kill2,
      runJob cfg { env with
                   stderrCaptured := bytes
                   waitResult := wr
                   killOk := kill2 }
        = runJob cfg env) := by
  have hcw : childWins cfg env = false := by
    unfold childWins
    simp
    omega
  have hrun : runJob cfg env
      = some (Outcome.timeout cfg.timeoutSecs (timeoutMsg cfg.timeoutSecs)) := by
    unfold runJob
    rw [hex, hop, hsp, hcw]
    simp
  refine ⟨hrun, ?_, ?_, ?_⟩
  · unfold killAttempted
    rw [hex, hop, hsp, hcw]
    rfl
  · intro e d h
    rw [hrun] at h
    simp at h
    exact ⟨by omega, h.2.symm⟩
  · intro bytes wr kill2
    have hlt : ¬ (env.exitTime < cfg.timeoutSecs) := by omega
    rw [hrun]
    unfold runJob childWins
    simp [hex, hop, hsp, hlt]

theorem utf8Lossy_cons_ascii (b : Nat) (hb : b < 0x80) (l : List Nat) :
    utf8Lossy (b :: l) = Char.ofNat b :: utf8Lossy l := by
  rw [utf8Lossy.eq_def]
  simp [hb]

theorem utf8Lossy_replicate_a (n : Nat) :
    utf8Lossy (List.replicate n 97) = List.replicate n 'a' := by
  induction n with
  | zero => rfl
  | succ k ih =>
    rw [List.replicate_succ, utf8Lossy_cons_ascii 97 (by decide), ih,
      List.replicate_succ]

/-- Evaluation of the executor on a job with exit status 1 and captured
stderr `bytes`: the diagnostic is the whole lossily-decoded stderr. -/
theorem runJob_envNonzero (bytes : List Nat) :
    runJob cfg0 (envNonzero bytes)
      = some (Outcome.failure 7 (String.mk (utf8Lossy bytes))) := rfl

/-- C6 counterexample: the claim says the `Failure` diagnostic is
truncated to a bounded length for display.  No such bound exists: the
diagnostic is the full decoded stderr, so for every candidate cap a
job whose stderr is `cap + 1` ASCII bytes yields a longer diagnostic.
(The matching source line prints `e.trim()` — whitespace trimming only,
no length cap; the 2000-char cap lives in the other, HTTP branch of the
conflicted file.) -/
theorem stderr_diag_unbounded :
    ¬ ∃ cap : Nat, ∀ bytes : List Nat, ∀ e d,
      runJob cfg0 (envNonzero bytes) = some (Outcome.failure e d) →
        d.length ≤ cap := by
  rintro ⟨cap, hc⟩
  have hrun := runJob_envNonzero (List.replicate (cap + 1) 97)
  have hle := hc (List.replicate (cap + 1) 97) 7 _ hrun
  rw [utf8Lossy_replicate_a] at hle
  have hlen : (String.mk (List.replicate (cap + 1) 'a')).length = cap + 1 := by
    simp [String.length]
  omega

/-- C6 (amended): a job whose external process exits with non-zero
status produces a `Failure` outcome whose diagnostic is the captured
stderr decoded permissively (`from_utf8_lossy`: invalid bytes replaced,
never rejected) in full — no truncation is applied — or, when the
output could not be collected, a fallback naming the exit code. -/
theorem nonzero_exit_failure_diag (cfg : Config) (env : JobEnv)
    (code : Option Int)
    (hex : env.fileExists = true) (hop : env.openErr = none)
    (hsp : env.spawnOk = true) (hcw : env.exitTime < cfg.timeoutSecs)
    (hwr : env.waitResult = Except.ok code) (hnz : ¬ code = some 0) :
    runJob cfg env
      = some (Outcome.failure env.exitTime (failDiag env.stderrCaptured code)) ∧
    (∀ bytes, env.stderrCaptured = some bytes →
      failDiag env.stderrCaptured code = String.mk (utf8Lossy bytes)) ∧
    (env.stderrCaptured = none →
      failDiag env.stderrCaptured code = "退出代码: " ++ fmtOptCode code) := by
  refine ⟨?_, ?_, ?_⟩
  · unfold runJob childWins
    simp [hex, hop, hsp, hcw, hwr, hnz]
  · intro bytes hb
    rw [show failDiag env.stderrCaptured code
      = failDiag (some bytes) code from by rw [hb]]
    rfl
  · intro hb
    rw [show failDiag env.stderrCaptured code
      = failDiag none code from by rw [hb]]
    rfl

/-- Witness for C6 at a concrete job: exit status 1 with stderr bytes
`62 61 64` gives a `Failure` whose diagnostic decodes to `bad`. -/
theorem nonzero_exit_failure_diag_witness :
    runJob cfg0 envFailX
      = some (Outcome.failure 5 (failDiag (some [98, 97, 100]) (some 1))) ∧
    failDiag (some [98, 97, 100]) (some 1)
      = String.mk (utf8Lossy [98, 97, 100]) ∧
    String.mk (utf8Lossy [98, 97, 100]) = ("bad") := by
  have h := nonzero_exit_failure_diag cfg0 envFailX (some 1) rfl rfl rfl
    (by decide) rfl (by decide)
  exact ⟨h.1, h.2.1 [98, 97, 100] rfl, rfl⟩

/-- Witness for C5 at a concrete job whose child would exit only after
100000s against an 1800s deadline. -/
theorem timeout_branch_behavior_witness :
    runJob cfg0 envTimeout
      = some (Outcome.timeout cfg0.timeoutSecs (timeoutMsg cfg0.timeoutSecs)) ∧
    killAttempted cfg0 envTimeout = true :=
  ⟨(timeout_branch_behavior cfg0 envTimeout rfl rfl rfl (by decide)).1,
   (timeout_branch_behavior cfg0 envTimeout rfl rfl rfl (by decide)).2.1⟩

/-- C7: the only fatal errors are the `read_dir` failure, a failed
directory-entry iteration, and a failed creation of the `done`
directory; each aborts with an error before any job line is printed.
Every other run — whatever the individual jobs do — returns Ok, so the
process exit status is success even when jobs fail. -/
theorem fatal_error_policy (cfg : Config) (env : RunEnv) :
    (∀ e, env.readDirErr = some e →
      mainRun cfg env = ([], Except.error ("无法读取目录: " ++ e))) ∧
    (∀ e, env.readDirErr = none → collectFiles env.entries = Except.error e →
      mainRun cfg env = ([], Except.error e)) ∧
    (∀ files, env.readDirErr = none →
      collectFiles env.entries = Except.ok files → files.isEmpty = false →
      env.doneDirExists = false → env.createDirErr.isSome = true →
      mainRun cfg env = ([headerLine files.length cfg.workers cfg.threads],
        Except.error "无法创建 done 目录")) ∧
    (∀ files, env.readDirErr = none →
      collectFiles env.entries = Except.ok files →
      (files.isEmpty = true ∨ env.doneDirExists = true ∨ env.createDirErr = none) →
      (mainRun cfg env).2 = Except.ok ()) := by
  refine ⟨?_, ?_, ?_, ?_⟩
  · intro e he
    unfold mainRun
    rw [he]
  · intro e h1 h2
    unfold mainRun
    rw [h1, h2]
  · intro files h1 h2 h3 h4 h5
    unfold mainRun
    rw [h1, h2]
    simp [h3, h4, h5]
  · intro files h1 h2 h3
    unfold mainRun
    rw [h1, h2]
    rcases h3 with h3 | h3 | h3
    · simp [h3]
    · cases hfe : files.isEmpty <;> simp [hfe, h3]
    · cases hfe : files.isEmpty <;> simp [hfe, h3]

/-- Witness for C7: a failed enumeration and a failed entry abort with
no output; a failed `done`-creation aborts after the header only; a run
whose single job fails still returns Ok. -/
theorem fatal_error_policy_witness :
    mainRun cfg0 runEnvFatal
      = ([], Except.error ("无法读取目录: No such file or directory (os error 2)")) ∧
    mainRun cfg0 runEnvEntryErr = ([], Except.error ("entry lost")) ∧
    (mainRun cfg0 runEnvCreateFail).2 = Except.error ("无法创建 done 目录") ∧
    (mainRun cfg0 runEnvF).2 = Except.ok () := by
  refine ⟨(fatal_error_policy cfg0 runEnvFatal).1 _ rfl,
    (fatal_error_policy cfg0 runEnvEntryErr).2.1 _ rfl rfl, ?_,
    (fatal_error_policy cfg0 runEnvF).2.2.2 _ rfl rfl (Or.inr (Or.inl rfl))⟩
  have h := (fatal_error_policy cfg0 runEnvCreateFail).2.2.1 _ rfl rfl rfl rfl rfl
  rw [h]

/-- C8 counterexample: the run-end summary contains no per-outcome
counts.  Two concrete runs with different outcome counts (one success
versus one failure) emit exactly the same summary block — a completion
banner and the total elapsed time. -/
theorem summary_without_counts :
    outcomeCounts cfg0 runEnvS = (1, 0, 0, 0) ∧
    outcomeCounts cfg0 runEnvF = (0, 1, 0, 0) ∧
    outcomeCounts cfg0 runEnvS ≠ outcomeCounts cfg0 runEnvF ∧
    (mainRun cfg0 runEnvS).1.drop 3 = summaryLogs 42 ∧
    (mainRun cfg0 runEnvF).1.drop 3 = summaryLogs 42 ∧
    (mainRun cfg0 runEnvS).1.length = 5 ∧
    (mainRun cfg0 runEnvF).1.length = 5 := by
  refine ⟨rfl, rfl, ?_, rfl, rfl, rfl, rfl⟩
  intro h
  rw [show outcomeCounts cfg0 runEnvS = (1, 0, 0, 0) from rfl,
      show outcomeCounts cfg0 runEnvF = (0, 1, 0, 0) from rfl] at h
  simp at h

/-- C8 (amended): after all job output — and only then — the run emits
its run-end block: the completion banner and the total wall-clock
elapsed time (but no per-outcome counts), and `main` returns Ok. -/
theorem summary_after_join (cfg : Config) (env : RunEnv) (files : List Entry)
    (h1 : env.readDirErr = none)
    (h2 : collectFiles env.entries = Except.ok files)
    (h3 : files.isEmpty = false)
    (h4 : env.doneDirExists = true ∨ env.createDirErr = none) :
    (mainRun cfg env).1
      = headerLine files.length cfg.workers cfg.threads ::
          ((files.map (fun en => jobLogs cfg en.job)).flatten
            ++ summaryLogs env.totalElapsed) ∧
    (mainRun cfg env).2 = Except.ok () := by
  unfold mainRun
  rw [h1, h2]
  rcases h4 with h4 | h4 <;> simp [h3, h4]

/-- Witness for C8 at the one-success run: the full printed transcript
is the header, the job lines, then the summary block. -/
theorem summary_after_join_witness :
    (mainRun cfg0 runEnvS).1
      = headerLine 1 cfg0.workers cfg0.threads ::
          (jobLogs cfg0 envSucc ++ summaryLogs 42) ∧
    (mainRun cfg0 runEnvS).2 = Except.ok () := by
  have h := summary_after_join cfg0 runEnvS [⟨("e.orc"), true, envSucc⟩]
    rfl rfl rfl (Or.inl rfl)
  exact ⟨h.1, h.2⟩

/-- C9: an empty enumeration reports nothing-to-do and returns Ok with
no jobs and no attempt to create the destination directory; a non-empty
enumeration ensures the `done` directory: when it already exists
nothing is created and that is no error, when it is absent and creation
succeeds the run proceeds and returns Ok. -/
theorem empty_run_and_done_dir (cfg : Config) (env : RunEnv) :
    (env.readDirErr = none → collectFiles env.entries = Except.ok [] →
      mainRun cfg env = ([noFilesLine], Except.ok ()) ∧
      runOutcomes cfg env = [] ∧ dirCreationAttempted env = false) ∧
    (∀ files, env.readDirErr = none →
      collectFiles env.entries = Except.ok files →
      files.isEmpty = false → env.doneDirExists = true →
      dirCreationAttempted env = false ∧ (mainRun cfg env).2 = Except.ok ()) ∧
    (∀ files, env.readDirErr = none →
      collectFiles env.entries = Except.ok files →
      files.isEmpty = false → env.doneDirExists = false →
      env.createDirErr = none →
      dirCreationAttempted env = true ∧ (mainRun cfg env).2 = Except.ok ()) := by
  refine ⟨?_, ?_, ?_⟩
  · intro h1 h2
    unfold mainRun runOutcomes dirCreationAttempted
    rw [h1, h2]
    simp
  · intro files h1 h2 h3 h4
    unfold mainRun dirCreationAttempted
    rw [h1, h2]
    simp [h3, h4]
  · intro files h1 h2 h3 h4 h5
    unfold mainRun dirCreationAttempted
    rw [h1, h2]
    simp [h3, h4, h5]

/-- Witness for C9: a run seeing only the `done` subdirectory entry is
empty (even with a creation error pending, creation is never
attempted); an existing `done` directory is not recreated and not an
error; a missing one is created. -/
theorem empty_run_and_done_dir_witness :
    (mainRun cfg0 runEnvEmpty = ([noFilesLine], Except.ok ()) ∧
      runOutcomes cfg0 runEnvEmpty = [] ∧
      dirCreationAttempted runEnvEmpty = false) ∧
    (dirCreationAttempted runEnvS = false ∧
      (mainRun cfg0 runEnvS).2 = Except.ok ()) ∧
    (dirCreationAttempted runEnvCreateOk = true ∧
      (mainRun cfg0 runEnvCreateOk).2 = Except.ok ()) :=
  ⟨(empty_run_and_done_dir cfg0 runEnvEmpty).1 rfl rfl,
   (empty_run_and_done_dir cfg0 runEnvS).2.1 _ rfl rfl rfl rfl,
   (empty_run_and_done_dir cfg0 runEnvCreateOk).2.2 _ rfl rfl rfl rfl rfl⟩

/-- C10: a panicked task (the spawn `.expect`) is terminal in the gate
system and aborts only itself: from any reachable state containing a
panicked task, a state where every task has finished is still
reachable, with that task still recorded as panicked (the permit it
held was returned by the unwind); and the concrete run containing a
spawn-panicking job still joins, prints the full transcript ending in
the summary block, and returns Ok while its sibling job succeeds. -/
theorem panic_contained (w n i : Nat) (s : GateState) (hw : 1 ≤ w)
    (hr : Reachable w n s) (hp : s.phases[i]? = some Phase.panicked) :
    (∃ t, Relation.ReflTransGen Step s t ∧ allTerminal t ∧
        t.phases[i]? = some Phase.panicked) ∧
    (mainRun cfg0 runEnvPanic).2 = Except.ok () ∧
    runOutcomes cfg0 runEnvPanic = [none, some (Outcome.success 5)] ∧
    (mainRun cfg0 runEnvPanic).1
      = headerLine 2 cfg0.workers cfg0.threads ::
          (jobLogs cfg0 envSpawnFail ++ jobLogs cfg0 envSucc ++ summaryLogs 9) := by
  have hi := gateInv_reachable hr
  obtain ⟨t, hrt, ht⟩ := gateProgress hw (gateMeasure s) s (le_refl _) hi
  exact ⟨⟨t, hrt, ht, rtg_keeps_terminal hrt hp rfl⟩, rfl, rfl, rfl⟩

/-- Witness for C10 at a concrete state where the first of two jobs has
panicked under a one-permit gate. -/
theorem panic_contained_witness :
    (∃ t, Relation.ReflTransGen Step
        (GateState.mk 1 [Phase.panicked, Phase.pending]) t ∧
        allTerminal t ∧ t.phases[0]? = some Phase.panicked) ∧
    (mainRun cfg0 runEnvPanic).2 = Except.ok () ∧
    runOutcomes cfg0 runEnvPanic = [none, some (Outcome.success 5)] ∧
    (mainRun cfg0 runEnvPanic).1
      = headerLine 2 cfg0.workers cfg0.threads ::
          (jobLogs cfg0 envSpawnFail ++ jobLogs cfg0 envSucc ++ summaryLogs 9) := by
  have hreach : Reachable 1 2 ⟨1, [Phase.panicked, Phase.pending]⟩ := by
    apply Relation.ReflTransGen.head (Step.acquire (gateInit 1 2) 0 rfl (by decide))
    apply Relation.ReflTransGen.head
      (Step.panicStep ⟨0, [Phase.admitted, Phase.pending]⟩ 0 rfl)
    exact Relation.ReflTransGen.refl
  exact panic_contained 1 2 0 _ (by decide) hreach rfl

end CkLoader
